import Mathlib

/-!
Verification of the yagna exe-unit virtual network relay
(`src/exe-unit/src/network.rs`) against its specification.

Bytes are modelled as natural numbers below 256 in `List Nat`; IP
addresses as 32-bit natural number values (big-endian byte value).
The 2-byte length values use native byte order, which is little-endian
on every platform the crate targets (x86_64 / aarch64).

Code of the repository that lives outside the sampled file
(ya-utils-networking `Networks` / `Network`, ya-core-model message
shapes, packet parsers) is modelled from the specification text; each
such definition carries a doc comment starting with
`Modelled from the spec:`.
-/

set_option autoImplicit false

namespace Vpn

/-! ## Frame codec (network.rs lines 344-427) -/

/-- PREFIX_SIZE in the source: `size_of::<u16>()`. -/
def PSIZE : Nat := 2

/-- read_prefix (network.rs:414-421): reads the first two bytes as a
native-endian (little-endian) u16, `none` if fewer than two bytes. -/
def readLen (src : List Nat) : Option Nat :=
  match src with
  | b0 :: b1 :: _ => some (b0 + 256 * b1)
  | _ => none

/-- write_prefix (network.rs:423-427): `dst.len() as u16` (truncation
modulo 2^16) spliced at the front in native byte order. -/
def writeLen (dst : List Nat) : List Nat :=
  dst.length % 256 :: dst.length / 256 % 256 :: dst

/-- take_next (network.rs:406-412): when `src` holds a full
prefix+payload of payload length `len`, drains it and returns the
payload together with the remaining bytes of `src`. -/
def take_next (src : List Nat) (len : Nat) : Option (List Nat × List Nat) :=
  if PSIZE + len ≤ src.length then
    some ((src.take (PSIZE + len)).drop PSIZE, src.drop (PSIZE + len))
  else
    none

/-- RxBuffer (network.rs:347-359): pending expected payload length and
the bytes accumulated toward the next frame boundary. -/
structure RxBuffer where
  expected : Nat
  inner : List Nat
  deriving DecidableEq, Repr

/-- RxBuffer::default (network.rs:352-359). -/
def rxDefault : RxBuffer := { expected := 0, inner := [] }

/-- RxIterator::next fallthrough, lines 397-402: append the remaining
chunk bytes to the buffer and record the expected length when a full
prefix is present (the field keeps its old value otherwise). -/
def rxNextStore (b : RxBuffer) (r : List Nat) :
    Option (List Nat) × RxBuffer × List Nat :=
  let inner := b.inner ++ r
  (none, { expected := (readLen inner).getD b.expected, inner := inner }, [])

/-- RxIterator::next second branch, lines 391-395: attempt to decode a
complete frame directly out of the received chunk; the buffer is left
untouched on success. -/
def rxNextTail (b : RxBuffer) (r : List Nat) :
    Option (List Nat) × RxBuffer × List Nat :=
  match readLen r with
  | some len =>
    match take_next r len with
    | some (item, rest) => (some item, b, rest)
    | none => rxNextStore b r
  | none => rxNextStore b r

/-- RxIterator::next (network.rs:375-404): one step of the decoder,
returning the emitted payload (if any) and the updated buffer and
chunk remainder. -/
def rxNext (buf : RxBuffer) (received : List Nat) :
    Option (List Nat) × RxBuffer × List Nat :=
  -- lines 379-382: top the buffer up toward the expected length
  let topped :=
    if buf.expected > 0 ∧ received.length > 0 then
      let len := min buf.expected received.length
      ({ buf with inner := buf.inner ++ received.take len }, received.drop len)
    else
      (buf, received)
  let b := topped.1
  let r := topped.2
  -- lines 384-389: emit from the internal buffer when it holds a frame
  match readLen b.inner with
  | some len =>
    match take_next b.inner len with
    | some (item, rest) =>
      (some item, { expected := (readLen rest).getD 0, inner := rest }, r)
    | none => rxNextTail b r
  | none => rxNextTail b r

/-- Iterating RxIterator::next until it yields `None`.  Each emission
drains at least `PSIZE` bytes from the conserved total, so a fuel of
total byte count + 1 is never exhausted. -/
def rxRun : Nat → RxBuffer → List Nat → List (List Nat) × RxBuffer
  | 0, buf, _ => ([], buf)
  | fuel + 1, buf, received =>
    match rxNext buf received with
    | (some item, b, r) =>
      let rest := rxRun fuel b r
      (item :: rest.1, rest.2)
    | (none, b, _) => ([], b)

/-- RxBuffer::process (network.rs:361-368) driven to exhaustion, as the
egress StreamHandler does (lines 190-207): the list of payloads emitted
for one received chunk, and the buffer afterwards. -/
def RxBuffer.process (buf : RxBuffer) (received : List Nat) :
    List (List Nat) × RxBuffer :=
  rxRun (buf.inner.length + received.length + 1) buf received

/-- Feeding a sequence of chunks through one RxBuffer, starting from
the default state, collecting every emitted payload in order. -/
def feedChunks (chunks : List (List Nat)) : List (List Nat) × RxBuffer :=
  chunks.foldl
    (fun acc chunk =>
      let out := RxBuffer.process acc.2 chunk
      (acc.1 ++ out.1, out.2))
    ([], rxDefault)

/-! ## Topology table

The `Networks` / `Network` containers live in the ya-utils-networking
crate of the repository, which is not part of the sampled file; their
operations are modelled from spec section 4.2.  The control-plane
handler and `gsb_endpoint` are translated from network.rs. -/

/-- Error taxonomy of spec sections 4.2 and 7 (ya-utils-networking
`vpn::error::Error`). -/
inductive VpnError where
  | UnknownNetwork (id : String)
  | AddressOutOfRange (ip : Nat)
  | AddressInUse (ip : Nat)
  | DuplicateNetwork (id : String)
  | InvalidAddressSpace (id : String)
  | NetAddrTaken (ip : Nat)
  deriving DecidableEq, Repr

/-- Modelled from the spec: one VirtualNetwork of the Topology Table —
identifier, address space (network address + mask), reserved gateway,
peer memberships (ip to peer id) and the derived reverse index from ip
to routing endpoint (spec section 3). -/
structure Network where
  id : String
  addr : Nat
  mask : Nat
  gateway : Nat
  nodes : List (Nat × String)
  endpoints : List (Nat × String)
  deriving DecidableEq, Repr

/-- The Topology Table: registered virtual networks, keyed by their
`id` field, in registration order. -/
abbrev Networks := List Network

/-- gsb_endpoint (network.rs:429-431): the remote addressing scheme
`"/net/" + peer + "/vpn/" + network`. -/
def gsb_endpoint (node_id : String) (net_id : String) : String :=
  "/net/" ++ node_id ++ "/vpn/" ++ net_id

/-- Modelled from the spec: membership of an address in a network's
address space (address-bits under the mask match the network address). -/
def inSpace (net : Network) (ip : Nat) : Bool :=
  Nat.land ip net.mask == net.addr

/-- Modelled from the spec: `add_node` of ya-utils-networking —
AddressOutOfRange when the ip is outside the space or equals the
gateway, AddressInUse when the ip is already assigned to a different
peer, otherwise insert/update the membership and the reverse index.
The endpoint constructor `f` is a parameter, as in the source; both
call sites (network.rs:74 and network.rs:258) pass `gsb_endpoint`. -/
def add_node (net : Network) (ip : Nat) (peer_id : String)
    (f : String → String → String) : Except VpnError Network :=
  if inSpace net ip = false ∨ ip = net.gateway then
    .error (.AddressOutOfRange ip)
  else if net.nodes.any (fun p => p.1 == ip && p.2 != peer_id) then
    .error (.AddressInUse ip)
  else
    .ok { net with
          nodes := (ip, peer_id) :: net.nodes.filter (fun p => p.1 != ip),
          endpoints :=
            (ip, f peer_id net.id) ::
              net.endpoints.filter (fun p => p.1 != ip) }

/-- Modelled from the spec: `remove_node` — removes every ip mapping of
the peer in the network, a no-op when the peer has no membership. -/
def remove_node (net : Network) (peer_id : String) : Network :=
  { net with
    nodes := net.nodes.filter (fun p => p.2 != peer_id),
    endpoints :=
      net.endpoints.filter
        (fun e => !(net.nodes.any (fun p => p.1 == e.1 && p.2 == peer_id))) }

/-- Modelled from the spec: `Networks::get_mut` lookup by network id
(UnknownNetwork at the callers when absent). -/
def getNetwork (nets : Networks) (id : String) : Option Network :=
  nets.find? (fun n => n.id == id)

/-- Writing an updated network back into the table (the source mutates
the entry in place through `get_mut`). -/
def setNetwork (nets : Networks) (id : String) (net : Network) : Networks :=
  nets.map (fun n => if n.id == id then net else n)

/-- Modelled from the spec: `Networks::endpoint` — resolve a
destination ip to a routing endpoint through the reverse index,
searching networks in registration order. -/
def endpointOf (nets : Networks) (ip : Nat) : Option String :=
  match nets with
  | [] => none
  | n :: rest =>
    match n.endpoints.find? (fun p => p.1 == ip) with
    | some p => some p.2
    | none => endpointOf rest ip

/-- Modelled from the spec: `Networks::endpoints` — the deduplicated
endpoints of every peer; the call site (network.rs:93) passes no
network id, so the list ranges over every registered network. -/
def endpointsAll (nets : Networks) : List String :=
  (nets.foldl (fun acc n => acc ++ n.endpoints.map (fun p => p.2)) []).dedup

/-- Modelled from the spec: `Networks::add` (add_network) —
DuplicateNetwork when the id exists, InvalidAddressSpace when the
space has fewer than 2 usable hosts, otherwise an empty network whose
gateway is the first usable host address. -/
def add_network (nets : Networks) (id : String) (addr mask : Nat)
    (hostsCount : Nat) : Except VpnError Networks :=
  if (getNetwork nets id).isSome then .error (.DuplicateNetwork id)
  else if hostsCount < 2 then .error (.InvalidAddressSpace id)
  else .ok (nets ++ [{ id := id, addr := addr, mask := mask,
                       gateway := addr + 1, nodes := [], endpoints := [] }])

/-! ## Packet classifier and forwarder (network.rs lines 86-135) -/

/-- Modelled from the spec: the parsed structure of an IP frame needed
by the classifier — the destination address and whether it is a
broadcast destination (`IpPacket::dst_address` / `is_broadcast` of
ya-utils-networking). -/
structure IpPacket where
  dst_address : Nat
  is_broadcast : Bool
  deriving DecidableEq, Repr

/-- Modelled from the spec: the parsed structure of an ARP frame —
the protocol-type field bytes (PTYPE) and the target protocol address
(TPA), per `ArpPacket::get_field` of ya-utils-networking. -/
structure ArpPacket where
  ptype : List Nat
  tpa : Nat
  deriving DecidableEq, Repr

/-- One remote call issued on the message bus: the routing endpoint
addressed and the VpnPacket payload carried. -/
structure RemoteCall where
  endpoint : String
  payload : List Nat
  deriving DecidableEq, Repr

/-- forward_frame (network.rs:124-135): one detached remote call to the
endpoint carrying the whole frame bytes (`frame.into()`); the topology
is not touched. -/
def forward_frame (nets : Networks) (endpoint : String) (bytes : List Nat) :
    Networks × List RemoteCall :=
  (nets, [{ endpoint := endpoint, payload := bytes }])

/-- handle_ip (network.rs:86-108): broadcast destinations fan out to
every endpoint of `Networks::endpoints`, each call carrying the whole
frame bytes (`frame.as_ref().to_vec()`); unicast destinations resolve
through the topology and forward, unresolved ones are dropped. -/
def handle_ip (nets : Networks) (bytes : List Nat) (pkt : IpPacket) :
    Networks × List RemoteCall :=
  if pkt.is_broadcast then
    (nets, (endpointsAll nets).map
      (fun e => { endpoint := e, payload := bytes }))
  else
    match endpointOf nets pkt.dst_address with
    | some e => forward_frame nets e bytes
    | none => (nets, [])

/-- handle_arp (network.rs:110-122): forward only when PTYPE is the
IPv4 value `[0x08, 0x00]`; the TPA resolves through the topology; the
whole original frame is forwarded, otherwise the frame is dropped. -/
def handle_arp (nets : Networks) (bytes : List Nat) (pkt : ArpPacket) :
    Networks × List RemoteCall :=
  if pkt.ptype ≠ [8, 0] then (nets, [])
  else
    match endpointOf nets pkt.tpa with
    | some e => forward_frame nets e bytes
    | none => (nets, [])

/-! ## Control plane (network.rs lines 241-272) -/

/-- The AddNodes loop body (network.rs:256-260): apply `add_node` entry
by entry; the first failure stops the loop, keeping the updates already
applied to the network (the source mutates through `get_mut`). -/
def addNodesGo (net : Network) (nodes : List (Nat × String)) :
    Network × Option VpnError :=
  match nodes with
  | [] => (net, none)
  | (ip, pid) :: rest =>
    match add_node net ip pid gsb_endpoint with
    | .error e => (net, some e)
    | .ok net2 => addNodesGo net2 rest

/-- Applying a batch in which every entry succeeds (used to name the
successfully-applied prefix of a failing batch). -/
def addNodesOk (net : Network) (nodes : List (Nat × String)) :
    Option Network :=
  match nodes with
  | [] => some net
  | (ip, pid) :: rest =>
    match add_node net ip pid gsb_endpoint with
    | .error _ => none
    | .ok net2 => addNodesOk net2 rest

/-- VpnControl::AddNodes handler branch (network.rs:254-261):
UnknownNetwork when the network id is absent; otherwise the entries are
applied in order and the first `add_node` error is returned, with the
mutations made so far left in place. -/
def handleAddNodes (nets : Networks) (network_id : String)
    (nodes : List (Nat × String)) : Networks × Except VpnError Unit :=
  match getNetwork nets network_id with
  | none => (nets, .error (.UnknownNetwork network_id))
  | some net =>
    let r := addNodesGo net nodes
    (setNetwork nets network_id r.1,
     match r.2 with
     | some e => .error e
     | none => .ok ())

/-- VpnControl::RemoveNodes handler branch (network.rs:262-268):
UnknownNetwork when the network id is absent; otherwise `remove_node`
is applied for every listed peer id and the handler returns Ok. -/
def handleRemoveNodes (nets : Networks) (network_id : String)
    (node_ids : List String) : Networks × Except VpnError Unit :=
  match getNetwork nets network_id with
  | none => (nets, .error (.UnknownNetwork network_id))
  | some net =>
    (setNetwork nets network_id
      (node_ids.foldl (fun n pid => remove_node n pid) net),
     .ok ())

/-- Ingress handler (network.rs:214-238): the bytes written to the
local transport for one VpnPacket — write_prefix applied to the
payload. -/
def ingressBytes (packet : List Nat) : List Nat := writeLen packet

/-- The 2-byte wire-format encoding of a length value below 2^16
(spec section 6), little-endian as native order on the supported
targets. -/
def encodeLen (n : Nat) : List Nat := [n % 256, n / 256]

/-! ## Relay controller startup (network.rs lines 25-52 and 138-176) -/

/-- Modelled from the spec: one virtual network of the deployment
descriptor — address space, number of usable host addresses of that
space, the requestor-side interface address, and the peer memberships
(`DeploymentNetwork` of exe-unit state.rs, outside the sampled file). -/
structure DeploymentNetwork where
  addr : Nat
  mask : Nat
  hostsCount : Nat
  node_ip : Nat
  nodes : List (Nat × String)
  deriving DecidableEq, Repr

/-- Modelled from the spec: the deployment descriptor — virtual
networks with their data, plus static host entries. -/
structure Deployment where
  networks : List (String × DeploymentNetwork)
  hosts : List String
  deriving DecidableEq, Repr

/-- Modelled from the spec: `Deployment::networking()` — the relay is
wanted exactly when the descriptor declares virtual networks. -/
def networking (d : Deployment) : Bool := !d.networks.isEmpty

/-- The runtime-network API request entry (ya-runtime-api `Network`),
as built by the TryFrom at network.rs:324-342; addresses kept as
values. -/
structure RuntimeNetworkConf where
  addr : Nat
  gateway : Nat
  mask : Nat
  if_addr : Nat
  deriving DecidableEq, Repr

/-- TryFrom<&DeploymentNetwork> for Network (network.rs:324-342):
the gateway is the first usable host address of the space (the first
`hosts()` entry differing from the network address); NetAddrTaken when
the space has no usable host. -/
def tryFromNet (n : DeploymentNetwork) : Except VpnError RuntimeNetworkConf :=
  if n.hostsCount = 0 then .error (.NetAddrTaken n.addr)
  else .ok { addr := n.addr, gateway := n.addr + 1,
             mask := n.mask, if_addr := n.node_ip }

/-- The networks translation of network.rs:34-38 (collect of TryFrom
over the descriptor networks, first error aborts). -/
def translateAll (l : List (String × DeploymentNetwork)) :
    Except VpnError (List RuntimeNetworkConf) :=
  l.mapM (fun p => tryFromNet p.2)

/-- Modelled from the spec: the runtime-network API response — an
optional local endpoint (socket path), none when a local endpoint was
already established. -/
structure CreateNetworkResp where
  endpoint : Option String
  deriving DecidableEq, Repr

/-- The runtime-network API request (`CreateNetwork` of
ya-runtime-api). -/
structure CreateNetworkReq where
  networks : List RuntimeNetworkConf
  hosts : List String

/-- The connected local transport (`VpnEndpoint`, network.rs:284-322):
a send handle and an optional receive stream, modelled by the chunk
sequence it will deliver. -/
structure VpnEndpointM where
  rx : Option (List (List Nat))
  deriving DecidableEq, Repr

/-- The Vpn actor state built by `Vpn::try_new` (network.rs:54-84):
topology table, local transport and the decode buffer. -/
structure VpnState where
  networks : Networks
  endpoint : VpnEndpointM
  rx_buf : RxBuffer
  deriving DecidableEq, Repr

/-- Adding all initial members of one network (the inner loop of
network.rs:70-76); any failure aborts the construction. -/
def nodesAddM (net : Network) (nodes : List (Nat × String)) :
    Except VpnError Network :=
  nodes.foldlM (fun n p => add_node n p.1 p.2 gsb_endpoint) net

/-- Vpn::try_new (network.rs:62-84): register every network, then add
every initial membership, with `gsb_endpoint` as the endpoint
constructor. -/
def try_new (d : Deployment) (ep : VpnEndpointM) : Except VpnError VpnState := do
  let nets0 ← d.networks.foldlM
    (fun acc p => add_network acc p.1 p.2.addr p.2.mask p.2.hostsCount)
    ([] : Networks)
  let nets ← d.networks.foldlM
    (fun acc p =>
      match getNetwork acc p.1 with
      | some n => do
        let n2 ← nodesAddM n p.2.nodes
        pure (setNetwork acc p.1 n2)
      | none => pure acc)
    nets0
  pure { networks := nets, endpoint := ep, rx_buf := rxDefault }

/-- The outcome of start_vpn (network.rs:25-52). -/
inductive StartVpnOutcome where
  | noVpn
  | failed (msg : String)
  | failedErr (e : VpnError)
  | started (vpn : VpnState)
  deriving DecidableEq, Repr

/-- Whether the outcome started a relay actor. -/
def isStarted : StartVpnOutcome → Bool
  | .started _ => true
  | _ => false

/-- Whether the outcome is an error returned to the caller. -/
def isFailure : StartVpnOutcome → Bool
  | .failed _ => true
  | .failedErr _ => true
  | _ => false

/-- start_vpn (network.rs:25-52): no relay when networking is off;
translate the descriptor networks (first error aborts); call the
runtime-network API; a response without a local endpoint is an error
(the relay is never constructed or started); otherwise connect and
build the actor state. -/
def start_vpn (d : Deployment)
    (create_network : CreateNetworkReq → CreateNetworkResp)
    (connect : String → VpnEndpointM) : StartVpnOutcome :=
  if networking d = false then .noVpn
  else
    match translateAll d.networks with
    | .error e => .failedErr e
    | .ok confs =>
      match (create_network { networks := confs, hosts := d.hosts }).endpoint with
      | none => .failed "VPN endpoint already connected"
      | some path =>
        match try_new d (connect path) with
        | .error e => .failedErr e
        | .ok vpn => .started vpn

/-- Actor::started for Vpn (network.rs:141-158): routes are bound for
every registered network id, then the receive stream is taken; when it
is absent the actor stops (`ctx.stop()`) instead of becoming active.
Result: the network ids whose routes were bound, and whether the actor
stays active. -/
def actorStarted (v : VpnState) : List String × Bool :=
  (v.networks.map (fun n => n.id), v.endpoint.rx.isSome)

/-! ## Concrete states used by the counterexamples and witnesses -/

/-- The network `lan0` = 10.0.0.0/24 with gateway 10.0.0.1 and no
members (addresses as 32-bit values: 167772160 = 10.0.0.0,
4294967040 = 255.255.255.0). -/
def lan0 : Network :=
  { id := "lan0", addr := 167772160, mask := 4294967040,
    gateway := 167772161, nodes := [], endpoints := [] }

/-- `lan0` after `add_node 10.0.0.2 "peer1"` succeeded
(167772162 = 10.0.0.2). -/
def lan0peer1 : Network :=
  { id := "lan0", addr := 167772160, mask := 4294967040,
    gateway := 167772161, nodes := [(167772162, "peer1")],
    endpoints := [(167772162, "/net/peer1/vpn/lan0")] }

/-- `lan0` after `add_node 10.0.0.2 "alice"` succeeded. -/
def lan0alice : Network :=
  { id := "lan0", addr := 167772160, mask := 4294967040,
    gateway := 167772161, nodes := [(167772162, "alice")],
    endpoints := [(167772162, "/net/alice/vpn/lan0")] }

/-- Two networks with one member each: peer `a` = 10.0.0.2 in `net1` =
10.0.0.0/24 and peer `b` = 10.0.1.2 (167772418) in `net2` =
10.0.1.0/24 (167772416). -/
def twoNets : Networks :=
  [{ id := "net1", addr := 167772160, mask := 4294967040,
     gateway := 167772161, nodes := [(167772162, "a")],
     endpoints := [(167772162, "/net/a/vpn/net1")] },
   { id := "net2", addr := 167772416, mask := 4294967040,
     gateway := 167772417, nodes := [(167772418, "b")],
     endpoints := [(167772418, "/net/b/vpn/net2")] }]

/-- A deployment descriptor declaring `lan0` = 10.0.0.0/24 with
254 usable hosts and member alice = 10.0.0.2. -/
def dLan0 : Deployment :=
  { networks := [("lan0",
      { addr := 167772160, mask := 4294967040, hostsCount := 254,
        node_ip := 167772161, nodes := [(167772162, "alice")] })],
    hosts := [] }

end Vpn

namespace Vpn

/-! ## Theorems for claims C2, C3 (frame codec) -/

/-- C2: the round-trip framing property fails on the code.  The single
payload `[97, 98, 99]` is encoded by `write_prefix` to
`[3, 0, 97, 98, 99]`; splitting that encoding into the chunks `[3]`
and `[0, 97, 98, 99]` (a split inside the 2-byte prefix) and feeding
them to `RxBuffer::process` yields no payload at all: the decoder
misreads `[0, 97]` as a length prefix, stores the bytes, and never
re-examines the buffer, so the complete frame stays buffered instead
of being emitted. -/
theorem c2_roundtrip_fails_on_prefix_split :
    (List.flatten [[3], [0, 97, 98, 99]] = writeLen [97, 98, 99]) ∧
    (feedChunks [[3], [0, 97, 98, 99]]).1 = [] := by
  decide

/-- C3: the DecodeBuffer invariant fails on the code.  Encoding the
payloads `[5, 6]` and `[7]` gives `[2, 0, 5, 6] ++ [1, 0, 7]`; feeding
it as the chunks `[2, 0, 5]` and `[6, 1, 0, 7]` emits only `[5, 6]`
and leaves the buffer holding `[1, 0, 7]` with expected length 1:
three buffered bytes, not strictly fewer than prefix + expected = 3,
and a completely reconstructible frame (payload `[7]`) that was not
emitted during the call. -/
theorem c3_invariant_fails_after_process :
    (List.flatten [[2, 0, 5], [6, 1, 0, 7]] = writeLen [5, 6] ++ writeLen [7]) ∧
    (feedChunks [[2, 0, 5], [6, 1, 0, 7]]).1 = [[5, 6]] ∧
    (feedChunks [[2, 0, 5], [6, 1, 0, 7]]).2 =
      { expected := 1, inner := [1, 0, 7] } ∧
    ¬ ((feedChunks [[2, 0, 5], [6, 1, 0, 7]]).2.inner.length <
        PSIZE + (feedChunks [[2, 0, 5], [6, 1, 0, 7]]).2.expected) ∧
    (take_next (feedChunks [[2, 0, 5], [6, 1, 0, 7]]).2.inner 1).isSome = true := by
  decide

/-! ## Helper lemmas -/

/-- The AddNodes loop on a batch whose prefix `good` succeeds and whose
next entry fails: the loop stops with the first error and the network
reached after the good prefix. -/
theorem addNodesGo_first_failure (good : List (Nat × String)) :
    ∀ (net netG : Network) (ip : Nat) (pid : String)
      (rest : List (Nat × String)) (e : VpnError),
      addNodesOk net good = some netG →
      add_node netG ip pid gsb_endpoint = .error e →
      addNodesGo net (good ++ (ip, pid) :: rest) = (netG, some e) := by
  induction good with
  | nil =>
    intro net netG ip pid rest e hgood hbad
    cases hgood
    simp only [List.nil_append, addNodesGo, hbad]
  | cons hd tl ih =>
    intro net netG ip pid rest e hgood hbad
    obtain ⟨a, b⟩ := hd
    simp only [addNodesOk] at hgood
    simp only [List.cons_append, addNodesGo]
    cases h : add_node net a b gsb_endpoint with
    | error e2 => rw [h] at hgood; cases hgood
    | ok net2 =>
      rw [h] at hgood
      exact ih net2 netG ip pid rest e hgood hbad

/-- Splitting `endpointOf` over a cons cell that fails to resolve. -/
theorem endpointOf_cons_none (n : Network) (rest : Networks) (ip : Nat)
    (h : endpointOf (n :: rest) ip = none) :
    n.endpoints.find? (fun p => p.1 == ip) = none ∧ endpointOf rest ip = none := by
  unfold endpointOf at h
  cases hf : n.endpoints.find? (fun p => p.1 == ip) with
  | some p => rw [hf] at h; cases h
  | none => rw [hf] at h; exact ⟨rfl, h⟩

/-- When `add_node` succeeds it installs `(ip, f peer net.id)` at the
head of the reverse index. -/
theorem add_node_ok_endpoints (net : Network) (ip : Nat) (pid : String)
    (f : String → String → String) (net2 : Network)
    (h : add_node net ip pid f = .ok net2) :
    net2.endpoints = (ip, f pid net.id) ::
      net.endpoints.filter (fun p => p.1 != ip) := by
  unfold add_node at h
  split at h
  · cases h
  · split at h
    · cases h
    · cases h; rfl

/-- `getNetwork` only returns a network whose id field matches. -/
theorem getNetwork_id (nets : Networks) (id : String) (net : Network)
    (h : getNetwork nets id = some net) : net.id = id := by
  have := List.find?_some h
  exact eq_of_beq this

/-- Resolution after writing an updated network back: if the ip was
unresolvable before and the updated network maps it at the head of its
reverse index, the table resolves it to that endpoint. -/
theorem endpointOf_setNetwork (nets : Networks) (id : String)
    (net net2 : Network) (ip : Nat) (ep : String)
    (hget : getNetwork nets id = some net)
    (hfresh : endpointOf nets ip = none)
    (hhead : net2.endpoints.find? (fun p => p.1 == ip) = some (ip, ep)) :
    endpointOf (setNetwork nets id net2) ip = some ep := by
  induction nets with
  | nil => cases hget
  | cons n rest ih =>
    obtain ⟨hn, hrest⟩ := endpointOf_cons_none n rest ip hfresh
    unfold getNetwork at hget
    simp only [List.find?] at hget
    cases hid : (n.id == id) with
    | true =>
      unfold setNetwork
      rw [List.map_cons, if_pos hid]
      unfold endpointOf
      rw [hhead]
    | false =>
      rw [hid] at hget
      unfold setNetwork
      rw [List.map_cons, if_neg (by simp [hid])]
      unfold endpointOf
      rw [hn]
      exact ih hget hrest

/-! ## Claim theorems -/

/-- C1 (counterexample): AddNodes is not transactional.  On the table
holding only the empty network `lan0` = 10.0.0.0/24, the batch
`[(10.0.0.2, peer1), (10.99.0.9, peer2)]` (174260233 = 10.99.0.9 is
outside the address space) returns AddressOutOfRange, yet `peer1`
stays added: the table is not left as it was before the call. -/
theorem c1_batch_not_atomic :
    (handleAddNodes [lan0] "lan0"
        [(167772162, "peer1"), (174260233, "peer2")]).2 =
      .error (.AddressOutOfRange 174260233) ∧
    (handleAddNodes [lan0] "lan0"
        [(167772162, "peer1"), (174260233, "peer2")]).1 = [lan0peer1] ∧
    [lan0peer1] ≠ [lan0] ∧
    endpointOf (handleAddNodes [lan0] "lan0"
        [(167772162, "peer1"), (174260233, "peer2")]).1 167772162 =
      some "/net/peer1/vpn/lan0" :=
  ⟨rfl, rfl, by decide, rfl⟩

/-- C1 (amended): the handler applies the batch entries in order and
stops at the first failing entry, returning its error; the entries
before it remain applied — the table is left with the successfully
added prefix, not rolled back. -/
theorem c1_add_nodes_first_error (nets : Networks) (N : String)
    (net netG : Network) (good : List (Nat × String)) (ip : Nat)
    (pid : String) (rest : List (Nat × String)) (e : VpnError)
    (hget : getNetwork nets N = some net)
    (hgood : addNodesOk net good = some netG)
    (hbad : add_node netG ip pid gsb_endpoint = .error e) :
    handleAddNodes nets N (good ++ (ip, pid) :: rest) =
      (setNetwork nets N netG, .error e) := by
  simp only [handleAddNodes, hget,
    addNodesGo_first_failure good net netG ip pid rest e hgood hbad]

/-- C1 witness: the amended statement at the counterexample input. -/
theorem c1_add_nodes_first_error_witness :
    handleAddNodes [lan0] "lan0"
        [(167772162, "peer1"), (174260233, "peer2")] =
      (setNetwork [lan0] "lan0" lan0peer1,
       .error (.AddressOutOfRange 174260233)) :=
  c1_add_nodes_first_error [lan0] "lan0" lan0 lan0peer1
    [(167772162, "peer1")] 174260233 "peer2" [] (.AddressOutOfRange 174260233)
    rfl rfl rfl

/-- C4 (counterexample): the broadcast fan-out is not limited to the
destination's network.  With two networks of one member each and a
frame whose destination 167772415 = 10.0.0.255 is the broadcast
address of `net1` (the or of its address and the complement of its
mask), the code issues two calls, not one per member of `net1`, and
the second call addresses the endpoint of peer `b`, a member only of
`net2`. -/
theorem c4_broadcast_crosses_networks :
    (handle_ip twoNets [9, 9]
        { dst_address := 167772415, is_broadcast := true }).2 =
      [{ endpoint := "/net/a/vpn/net1", payload := [9, 9] },
       { endpoint := "/net/b/vpn/net2", payload := [9, 9] }] ∧
    Nat.lor 167772160 (4294967295 - 4294967040) = 167772415 ∧
    (getNetwork twoNets "net1").map (fun n => n.nodes.length) = some 1 :=
  ⟨rfl, by decide, rfl⟩

/-- C4 (amended): a broadcast frame is fanned out with one remote call
per deduplicated endpoint of every registered network (the source call
site `self.networks.endpoints()` names no network), each call carrying
the identical original frame bytes. -/
theorem c4_broadcast_fan_out (nets : Networks) (bytes : List Nat)
    (pkt : IpPacket) (hb : pkt.is_broadcast = true) :
    (handle_ip nets bytes pkt).2 =
      (endpointsAll nets).map (fun e => { endpoint := e, payload := bytes }) := by
  unfold handle_ip
  rw [hb]
  simp

/-- C4 witness: the amended statement at the two-network input. -/
theorem c4_broadcast_fan_out_witness :
    (handle_ip twoNets [9, 9]
        { dst_address := 167772415, is_broadcast := true }).2 =
      (endpointsAll twoNets).map
        (fun e => { endpoint := e, payload := [9, 9] }) :=
  c4_broadcast_fan_out twoNets [9, 9]
    { dst_address := 167772415, is_broadcast := true } rfl

/-- C5: an ARP frame causes a remote call exactly when its PTYPE field
is the IPv4 value `[0x08, 0x00]` and its TPA resolves in the topology;
at most one call is issued, it carries the entire original frame bytes
and addresses the resolved endpoint; otherwise the frame is dropped. -/
theorem c5_arp_forwarding (nets : Networks) (bytes : List Nat)
    (pkt : ArpPacket) :
    ((handle_arp nets bytes pkt).2 ≠ [] ↔
      pkt.ptype = [8, 0] ∧ (endpointOf nets pkt.tpa).isSome = true) ∧
    (handle_arp nets bytes pkt).2.all
      (fun c => c.payload == bytes &&
        some c.endpoint == endpointOf nets pkt.tpa) = true ∧
    (handle_arp nets bytes pkt).2.length ≤ 1 := by
  unfold handle_arp
  by_cases h : pkt.ptype = [8, 0]
  · cases he : endpointOf nets pkt.tpa <;>
      simp [h, he, forward_frame]
  · simp [h]

/-- C6: a peer P added to network N with ip resolves to the routing
endpoint `"/net/" + P + "/vpn/" + N`, and a unicast IP frame to that
ip is forwarded there unmodified.  (The endpoint constructor passed at
both add_node call sites is gsb_endpoint, network.rs:74 and 258.) -/
theorem c6_unicast_route (nets : Networks) (N P : String) (ip : Nat)
    (net net2 : Network) (bytes : List Nat)
    (hget : getNetwork nets N = some net)
    (hadd : add_node net ip P gsb_endpoint = .ok net2)
    (hfresh : endpointOf nets ip = none) :
    endpointOf (setNetwork nets N net2) ip =
      some ("/net/" ++ P ++ "/vpn/" ++ N) ∧
    handle_ip (setNetwork nets N net2) bytes
        { dst_address := ip, is_broadcast := false } =
      (setNetwork nets N net2,
       [{ endpoint := "/net/" ++ P ++ "/vpn/" ++ N, payload := bytes }]) := by
  have hid : net.id = N := getNetwork_id nets N net hget
  have heps := add_node_ok_endpoints net ip P gsb_endpoint net2 hadd
  have hhead : net2.endpoints.find? (fun p => p.1 == ip) =
      some (ip, gsb_endpoint P net.id) := by
    rw [heps]
    simp [List.find?]
  have hres : endpointOf (setNetwork nets N net2) ip =
      some (gsb_endpoint P net.id) :=
    endpointOf_setNetwork nets N net net2 ip (gsb_endpoint P net.id)
      hget hfresh hhead
  rw [hid] at hres
  have hgsb : gsb_endpoint P N = "/net/" ++ P ++ "/vpn/" ++ N := rfl
  rw [hgsb] at hres
  refine ⟨hres, ?_⟩
  simp [handle_ip, forward_frame, hres]

/-- C6 witness: the end-to-end scenario — network `lan0` =
10.0.0.0/24, peer alice = 10.0.0.2; a frame to 10.0.0.2 goes to
`/net/alice/vpn/lan0` unmodified. -/
theorem c6_unicast_route_witness :
    endpointOf (setNetwork [lan0] "lan0" lan0alice) 167772162 =
      some "/net/alice/vpn/lan0" ∧
    handle_ip (setNetwork [lan0] "lan0" lan0alice) [1, 2, 3]
        { dst_address := 167772162, is_broadcast := false } =
      (setNetwork [lan0] "lan0" lan0alice,
       [{ endpoint := "/net/alice/vpn/lan0", payload := [1, 2, 3] }]) :=
  c6_unicast_route [lan0] "lan0" "alice" 167772162 lan0 lan0alice
    [1, 2, 3] rfl rfl rfl

/-- C7: when the runtime-network API reports no local endpoint, the
relay is never started (start_vpn returns an error whenever networking
was requested, and no started outcome is possible); and a Vpn actor
whose receive stream is absent does not become active on start. -/
theorem c7_no_local_endpoint (d : Deployment)
    (cn : CreateNetworkReq → CreateNetworkResp)
    (connect : String → VpnEndpointM) (v : VpnState)
    (hcn : ∀ req, (cn req).endpoint = none)
    (hrx : v.endpoint.rx = none) :
    isStarted (start_vpn d cn connect) = false ∧
    (networking d = true → isFailure (start_vpn d cn connect) = true) ∧
    (actorStarted v).2 = false := by
  have hmain : isStarted (start_vpn d cn connect) = false ∧
      (networking d = true → isFailure (start_vpn d cn connect) = true) := by
    unfold start_vpn
    by_cases hnw : networking d = false
    · rw [if_pos hnw]
      exact ⟨rfl, fun h => absurd h (by simp [hnw])⟩
    · rw [if_neg hnw]
      cases htr : translateAll d.networks with
      | error e => exact ⟨rfl, fun _ => rfl⟩
      | ok confs =>
        simp only [hcn]
        exact ⟨rfl, fun _ => rfl⟩
  exact ⟨hmain.1, hmain.2, by simp [actorStarted, hrx]⟩

/-- C7 witness: the lan0 deployment against a runtime response with no
endpoint — startup fails, nothing is started, and an actor without a
receive stream is not active. -/
theorem c7_no_local_endpoint_witness :
    isStarted (start_vpn dLan0 (fun _ => { endpoint := none })
      (fun _ => { rx := none })) = false ∧
    isFailure (start_vpn dLan0 (fun _ => { endpoint := none })
      (fun _ => { rx := none })) = true ∧
    (actorStarted { networks := [], endpoint := { rx := none }, rx_buf := rxDefault }).2 = false :=
  have h := c7_no_local_endpoint dLan0 (fun _ => { endpoint := none })
    (fun _ => { rx := none })
    { networks := [], endpoint := { rx := none }, rx_buf := rxDefault }
    (fun _ => rfl) rfl
  ⟨h.1, h.2.1 rfl, h.2.2⟩

/-- C8: classification and forwarding leave the Topology Table exactly
as it was: the networks component returned by handle_ip, handle_arp
and forward_frame equals the input table. -/
theorem c8_forwarding_reads_only (nets : Networks) (bytes : List Nat)
    (ipk : IpPacket) (apk : ArpPacket) (e : String) :
    (handle_ip nets bytes ipk).1 = nets ∧
    (handle_arp nets bytes apk).1 = nets ∧
    (forward_frame nets e bytes).1 = nets := by
  refine ⟨?_, ?_, rfl⟩
  · unfold handle_ip
    split
    · rfl
    · split <;> simp [forward_frame]
  · unfold handle_arp
    split
    · rfl
    · split <;> simp [forward_frame]

/-- C9: write_prefix prepends the 2-byte native-endian encoding of the
payload length reduced modulo 2^16; the ingress handler therefore
writes a prefix that reads back as the true payload length exactly
when the payload holds at most 65535 bytes, and silently truncates
otherwise. -/
theorem c9_write_len_truncates (p : List Nat) :
    ingressBytes p = encodeLen (p.length % 65536) ++ p ∧
    readLen (ingressBytes p) = some (p.length % 65536) ∧
    (p.length % 65536 = p.length ↔ p.length ≤ 65535) := by
  refine ⟨?_, ?_, by omega⟩
  · simp only [ingressBytes, writeLen, encodeLen, List.cons_append,
      List.nil_append, List.cons.injEq, and_true]
    omega
  · simp only [ingressBytes, writeLen, readLen, Option.some.injEq]
    omega

/-- C10: RemoveNodes on an unknown network id returns UnknownNetwork
and mutates nothing; on a registered network every listed peer id is
removed in order and the handler returns Ok, membership or not. -/
theorem c10_remove_nodes (nets : Networks) (N : String)
    (ids : List String) :
    (getNetwork nets N = none →
      handleRemoveNodes nets N ids = (nets, .error (.UnknownNetwork N))) ∧
    (∀ net, getNetwork nets N = some net →
      handleRemoveNodes nets N ids =
        (setNetwork nets N
          (ids.foldl (fun n pid => remove_node n pid) net), .ok ())) := by
  constructor
  · intro h
    unfold handleRemoveNodes
    rw [h]
  · intro net h
    unfold handleRemoveNodes
    rw [h]

/-- C10 witness: both branches at concrete inputs — an unregistered
id errors without mutation; removing `peer1` and a peer with no
membership from `lan0` succeeds. -/
theorem c10_remove_nodes_witness :
    handleRemoveNodes [lan0] "wan9" ["x"] =
      ([lan0], .error (.UnknownNetwork "wan9")) ∧
    handleRemoveNodes [lan0peer1] "lan0" ["peer1", "ghost"] =
      (setNetwork [lan0peer1] "lan0"
        (remove_node (remove_node lan0peer1 "peer1") "ghost"), .ok ()) :=
  ⟨(c10_remove_nodes [lan0] "wan9" ["x"]).1 rfl,
   (c10_remove_nodes [lan0peer1] "lan0" ["peer1", "ghost"]).2 lan0peer1 rfl⟩

end Vpn
